import Mathlib

/-!
Verification development for the AetherLink motor-control core.

Shallow embedding of:
  * the MKS SERVO57D frame codec and transaction layer
    (src/hardware/motors/mks_servo57d_lib.py),
  * the limit-protection policy engine
    (src/hardware/motors/limit_protection.py),
  * the multi-motor controller facade
    (src/hardware/motors/multi_motor_controller.py),
  * the tracking-mode selector
    (src/webapp/backend/services/tracking_controller.py).

Python floats are modelled as rationals; Python ints as Lean Int/Nat with
explicit reductions mod 256 / 2^16 / 2^32 where the source masks.  Fallible
calls (serial reads/writes that may raise) are modelled with Option/Except
together with an explicit environment of oracle results, and the bus side
effects of each operation are recorded in an explicit event list.
-/

namespace AetherLink

/-! ### Frame codec (mks_servo57d_lib.py) -/

/-- Header byte for host-to-servo (downlink) frames (`DOWN_HDR = 0xFA`). -/
def DOWN_HDR : Nat := 0xFA

/-- Header byte for servo-to-host (uplink) frames (`UP_HDR = 0xFB`). -/
def UP_HDR : Nat := 0xFB

/-- `TICKS_PER_REV = 0x4000`: 16384 axis ticks per 360 degrees. -/
def TICKS_PER_REV : Nat := 0x4000

/-- `_checksum8(data) = sum(data) & 0xFF`. -/
def checksum8 (data : List Nat) : Nat := data.sum % 256

/-- `_pack_u16(x) = struct.pack(">H", x & 0xFFFF)`: big-endian, two bytes.
Python's `x & 0xFFFF` on a (possibly negative) int is `x mod 2^16`. -/
def pack_u16 (x : Int) : List Nat :=
  let v : Nat := (x % 65536).toNat
  [v / 256, v % 256]

/-- `_pack_i32(x) = struct.pack(">i", int(x))`: big-endian two's complement,
four bytes; in range the bytes are those of `x mod 2^32`. -/
def pack_i32 (x : Int) : List Nat :=
  let v : Nat := (x % 4294967296).toNat
  [v / 16777216 % 256, v / 65536 % 256, v / 256 % 256, v % 256]

/-- `_pack_u32(x) = struct.pack(">I", x & 0xFFFFFFFF)`. -/
def pack_u32 (x : Int) : List Nat :=
  let v : Nat := (x % 4294967296).toNat
  [v / 16777216 % 256, v / 65536 % 256, v / 256 % 256, v % 256]

/-- `MKSServo57D._frame`, generalised over the header byte:
`head = [hdr, addr & 0xFF, code & 0xFF]`, then `head + data + [checksum8 (head+data)]`. -/
def frameWith (hdr addr code : Nat) (data : List Nat) : List Nat :=
  let head := [hdr, addr % 256, code % 256]
  head ++ data ++ [checksum8 (head ++ data)]

/-- `MKSServo57D._frame(addr, code, data)`: a downlink (0xFA) frame. -/
def mksFrame (addr code : Nat) (data : List Nat) : List Nat :=
  frameWith DOWN_HDR addr code data

/-- `degrees_to_axis_ticks(deg) = int(round((deg / 360.0) * TICKS_PER_REV))`.
The source computes in binary floating point with banker's rounding at exact
ties; here the quantity is a rational and `round` is Mathlib's round-half-up.
Both roundings land within 1/2 of the exact value, which is all the
quantization bound uses. -/
def degrees_to_axis_ticks (deg : ℚ) : ℤ :=
  round (deg / 360 * (TICKS_PER_REV : ℚ))

/-- `axis_ticks_to_degrees(axis) = (axis / TICKS_PER_REV) * 360.0`. -/
def axis_ticks_to_degrees (axis : ℤ) : ℚ :=
  ((axis : ℚ) / (TICKS_PER_REV : ℚ)) * 360

/-- `MKSServo57D._pack_speed_dir(dir_ccw, speed_rpm)`:
clamps to `[0, 3000]` then packs direction bit 7 with a split speed field. -/
def pack_speed_dir (dir_ccw : Bool) (speed_rpm : Int) : Nat × Nat :=
  let s : Nat := (max 0 (min 3000 speed_rpm)).toNat
  let rev_bit : Nat := if dir_ccw then 0x80 else 0x00
  let hi := (s >>> 4) &&& 0x7F
  let lo := (s &&& 0x0F) <<< 4
  (rev_bit ||| hi, lo)

/-- Request frame built by `run_speed_mode` (opcode 0xF6). -/
def run_speed_mode_frame (addr : Nat) (dir_ccw : Bool) (speed_rpm : Int) (acc : Nat) : List Nat :=
  let p := pack_speed_dir dir_ccw speed_rpm
  mksFrame addr 0xF6 [p.1, p.2, acc % 256]

/-- Request frame built by `run_position_rel_pulses` (opcode 0xFD). -/
def run_position_rel_pulses_frame (addr : Nat) (dir_ccw : Bool) (speed_rpm : Int)
    (acc : Nat) (pulses : Int) : List Nat :=
  let p := pack_speed_dir dir_ccw speed_rpm
  mksFrame addr 0xFD ([p.1, p.2, acc % 256] ++ pack_u32 pulses)

/-- Request frame built by `run_position_abs_pulses` (opcode 0xFE). -/
def run_position_abs_pulses_frame (addr : Nat) (speed_rpm : Int) (acc : Nat)
    (abs_pulses : Int) : List Nat :=
  mksFrame addr 0xFE (pack_u16 speed_rpm ++ [acc % 256] ++ pack_i32 abs_pulses)

/-- Request frame built by `move_axis_relative` (opcode 0xF4). -/
def move_axis_relative_frame (addr : Nat) (speed_rpm : Int) (acc : Nat)
    (rel_axis_ticks : Int) : List Nat :=
  mksFrame addr 0xF4 (pack_u16 speed_rpm ++ [acc % 256] ++ pack_i32 rel_axis_ticks)

/-- Request frame built by `move_axis_absolute` (opcode 0xF5). -/
def move_axis_absolute_frame (addr : Nat) (speed_rpm : Int) (acc : Nat)
    (abs_axis_ticks : Int) : List Nat :=
  mksFrame addr 0xF5 (pack_u16 speed_rpm ++ [acc % 256] ++ pack_i32 abs_axis_ticks)

/-- `max(0, min(3000, rpm))`, the clamp performed by `_pack_speed_dir`. -/
def clampRpm (rpm : Int) : Int := max 0 (min 3000 rpm)

/-! ### Receive path (`MKSServo57D._recv`) -/

/-- The `_EXPECT_LEN` table, total frame length per reply opcode.  Keys whose
value is `None` in the source (0x40, 0x47, 0x48) behave exactly like missing
keys under `.get`, so both map to `none` here.  The stray negative keys the
dict literal also creates (`-0x32`, `-0x33`, `-0x39`, from unary minus on the
diff-marker lines) can never match a byte read from the wire and are omitted. -/
def EXPECT_LEN (code : Nat) : Option Nat :=
  if code = 0x30 then some 10
  else if code = 0x31 then some 10
  else if code = 0x32 then some 6
  else if code = 0x33 then some 8
  else if code = 0x34 then some 5
  else if code = 0x35 then some 10
  else if code = 0x39 then some 8
  else if code = 0x3A then some 5
  else if code = 0x3B then some 5
  else if code = 0x3D then some 5
  else if code = 0x3E then some 5
  else if code = 0x41 then some 5
  else if code = 0x46 then some 5
  else none

/-- Failure outcomes of `_recv`: `MKSNoResponse`, `MKSProtocolError`,
`MKSChecksumError`. -/
inductive RecvErr
  | noResponse
  | protocolError
  | checksumError
deriving DecidableEq, Repr

/-- The scan-until-checksum-valid loop of `_recv` for opcodes without a known
length: consume bytes one at a time; a byte equal to the checksum of the
bytes before it ends the frame.  The wall-clock deadline is modelled by the
finite remaining stream: running out of bytes is the timeout. -/
def scanFor (hdr : List Nat) (code expect_code : Nat) :
    List Nat → List Nat → Except RecvErr (List Nat)
  | _, [] => .error .noResponse
  | acc, b :: rest =>
    if b = checksum8 (hdr ++ acc) then
      if code = expect_code % 256 then .ok (hdr ++ acc ++ [b])
      else .error .protocolError
    else scanFor hdr code expect_code (acc ++ [b]) rest

/-- `MKSServo57D._recv(expect_code, expect_addr)` reading from a concrete byte
stream (the serial input): header read and checks, then either the
fixed-length read with checksum and function validation, or the
variable-length scan. -/
def recv (stream : List Nat) (expect_code : Nat) (expect_addr : Option Nat) :
    Except RecvErr (List Nat) :=
  match stream with
  | h0 :: h1 :: h2 :: rest =>
    if h0 ≠ UP_HDR then .error .protocolError
    else if (match expect_addr with
             | some ea => h1 != ea % 256
             | none => false) then .error .protocolError
    else
      match EXPECT_LEN h2 with
      | none => scanFor [h0, h1, h2] h2 expect_code [] rest
      | some exp =>
        let restBytes := rest.take (exp - 3)
        if restBytes.length ≠ exp - 3 then .error .noResponse
        else
          let fr := [h0, h1, h2] ++ restBytes
          if fr.getLast? ≠ some (checksum8 fr.dropLast) then .error .checksumError
          else if h2 ≠ expect_code % 256 then .error .protocolError
          else .ok fr
  | _ => .error .noResponse

/-- Decode to the `(address, function, payload)` triple the way callers of
`_xfer` consume a reply frame: `f[1]`, `f[2]`, and `f[3:-1]`. -/
def decodeTriple (stream : List Nat) (expect_code : Nat) (expect_addr : Option Nat) :
    Except RecvErr (Nat × Nat × List Nat) :=
  (recv stream expect_code expect_addr).map fun fr =>
    ((fr.getD 1 0), (fr.getD 2 0), (fr.drop 3).dropLast)

/-! ### Transaction send path (`MKSServo57D._send` / `_xfer`) -/

/-- Bus-affecting operations on the serial transport, in the order the code
issues them: `reset_input_buffer()`, `write(frame)`, `flush()`. -/
inductive SerialOp
  | resetInput
  | writeBytes (frame : List Nat)
  | flushOut
deriving DecidableEq, Repr

/-- Mock transport state: pending (stale) receive bytes and the log of byte
runs written to the bus. -/
structure SerialState where
  inBuf : List Nat
  written : List (List Nat)
deriving DecidableEq, Repr

/-- Effect of one transport operation on the transport state. -/
def applyOp (s : SerialState) : SerialOp → SerialState
  | .resetInput => { s with inBuf := [] }
  | .writeBytes f => { s with written := s.written ++ [f] }
  | .flushOut => s

/-- Run a sequence of transport operations. -/
def runOps (s : SerialState) : List SerialOp → SerialState
  | [] => s
  | op :: rest => runOps (applyOp s op) rest

/-- `MKSServo57D._send(frame)`: `reset_input_buffer(); write(frame); flush()`. -/
def sendOps (frame : List Nat) : List SerialOp :=
  [.resetInput, .writeBytes frame, .flushOut]

/-- The transport operations issued by `MKSServo57D._xfer(addr, code, data)`
before any reply is read: the frame is built first, then `_send` runs. -/
def xferSendOps (addr code : Nat) (data : List Nat) : List SerialOp :=
  sendOps (mksFrame addr code data)

/-! ### Tracking-mode selection (tracking_controller.py) -/

/-- `TrackingMode` of the tracking controller. -/
inductive TrackingMode
  | IDLE
  | HOLD
  | TRACK_SPEED
  | TRACK_POSITION
  | CORRECTING
deriving DecidableEq, Repr

/-- Default `TRACK_ERROR_THRESHOLD` (degrees). -/
def TRACK_ERROR_THRESHOLD : ℚ := 2

/-- Default `HOLD_ERROR_THRESHOLD` (degrees). -/
def HOLD_ERROR_THRESHOLD : ℚ := 1/2

/-- Default `VELOCITY_THRESHOLD` (degrees per second). -/
def VELOCITY_THRESHOLD : ℚ := 1/10

/-- `AxisTrackingState.determine_mode`, as a function of the three state
fields it reads (`error_deg`, `target_velocity_dps`, `actual_velocity_dps`)
and the three configured thresholds. -/
def determine_mode (error_deg target_velocity_dps actual_velocity_dps : ℚ)
    (trackErrTh holdErrTh velTh : ℚ) : TrackingMode :=
  let abs_error := |error_deg|
  let abs_target_vel := |target_velocity_dps|
  let abs_actual_vel := |actual_velocity_dps|
  if abs_error > trackErrTh then .TRACK_SPEED
  else if abs_target_vel > velTh then .TRACK_SPEED
  else if abs_error > holdErrTh ∧ abs_actual_vel > velTh then .CORRECTING
  else if abs_error ≤ holdErrTh ∧ abs_actual_vel ≤ velTh then .HOLD
  else .TRACK_POSITION

/-! ### Limit protection (limit_protection.py) -/

/-- `LimitViolationType`. -/
inductive LimitViolationType
  | NONE
  | SOFTWARE_MIN
  | SOFTWARE_MAX
  | HARDWARE_LIMIT
  | STALL_DETECTED
  | POSITION_ERROR
  | FOLLOWING_ERROR
deriving DecidableEq, Repr

/-- Abstract tags for the human-readable message strings the source builds
with f-strings; each constructor stands for one distinct message template. -/
inductive Msg
  | empty
  | unknownMotor (name : String)
  | belowMinimum
  | aboveMaximum
  | approachingMin
  | approachingMax
  | hardwareLimitTriggered
  | stallTriggered
  | followingErrorTooLarge
  | limitCheckError
  | targetBelowMin
  | targetAboveMax
  | currentViolation (inner : Msg)
  | moveValidated
  | moving
  | moveFailed
deriving DecidableEq, Repr

/-- `MotorLimits` dataclass (fields the control flow reads). -/
structure MotorLimits where
  addr : Nat
  name : String
  min_angle : Option ℚ := none
  max_angle : Option ℚ := none
  has_hardware_limits : Bool := false
  hardware_limits_enabled : Bool := false
  stall_detection_enabled : Bool := false
  max_following_error : Int := 500
  max_position_error_time_ms : Int := 1000
  warning_margin : ℚ := 5
  recovery_distance : ℚ := 2
  recovery_speed : Int := 100
deriving DecidableEq, Repr

/-- `LimitStatus` dataclass, with the dataclass defaults. -/
structure LimitStatus where
  violation_type : LimitViolationType := .NONE
  current_angle : Option ℚ := none
  limit_value : Option ℚ := none
  axis_error : Int := 0
  protect_flag : Nat := 0
  in_warning_zone : Bool := false
  message : Msg := .empty
deriving DecidableEq, Repr

/-- Oracle for the servo calls the protection system makes.  `none` for a
read means that call raises (timeout, checksum error, …); `false` for
`moveOk`/`estopOk` means that command raises. -/
structure ServoEnv where
  angle : Nat → Option ℚ
  limitSwitches : Nat → Option (Bool × Bool)
  protectFlag : Nat → Option Nat
  axisErr : Nat → Option Int
  moveOk : Nat → Bool
  estopOk : Nat → Bool

/-- One servo call observed on the bus (each such call writes at least the
request frame to the transport). -/
inductive Ev
  | readAngle (addr : Nat)
  | readLimitSwitches (addr : Nat)
  | readProtect (addr : Nat)
  | readAxisErr (addr : Nat)
  | moveToDeg (addr : Nat)
  | estop (addr : Nat)
deriving DecidableEq, Repr

/-- `limits.min_angle is not None and current_angle < limits.min_angle`. -/
def softMinViol (limits : MotorLimits) (ang : ℚ) : Bool :=
  match limits.min_angle with
  | none => false
  | some m => decide (ang < m)

/-- `limits.max_angle is not None and current_angle > limits.max_angle`. -/
def softMaxViol (limits : MotorLimits) (ang : ℚ) : Bool :=
  match limits.max_angle with
  | none => false
  | some m => decide (ang > m)

/-- `current_angle < limits.min_angle + limits.warning_margin` (guarded). -/
def warnMin (limits : MotorLimits) (ang : ℚ) : Bool :=
  match limits.min_angle with
  | none => false
  | some m => decide (ang < m + limits.warning_margin)

/-- `current_angle > limits.max_angle - limits.warning_margin` (guarded). -/
def warnMax (limits : MotorLimits) (ang : ℚ) : Bool :=
  match limits.max_angle with
  | none => false
  | some m => decide (ang > m - limits.warning_margin)

/-- Tail of `check_limits` after the software-limit and warning-zone steps:
the protect-status read and the following-error read, with the `try/except`
of the source returning the partially-filled status on a raising read. -/
def checkProtectAndError (env : ServoEnv) (limits : MotorLimits)
    (base : LimitStatus) (evs : List Ev) : LimitStatus × List Ev :=
  let a := limits.addr
  match env.protectFlag a with
  | none => ({ base with message := .limitCheckError }, evs ++ [Ev.readProtect a])
  | some flag =>
    let s2 := { base with protect_flag := flag }
    if flag ≠ 0 then
      ({ s2 with violation_type := .STALL_DETECTED, message := .stallTriggered },
       evs ++ [Ev.readProtect a])
    else
      match env.axisErr a with
      | none => ({ s2 with message := .limitCheckError },
                 evs ++ [Ev.readProtect a, Ev.readAxisErr a])
      | some e =>
        let s3 := { s2 with axis_error := e }
        if |e| > limits.max_following_error then
          ({ s3 with violation_type := .FOLLOWING_ERROR, message := .followingErrorTooLarge },
           evs ++ [Ev.readProtect a, Ev.readAxisErr a])
        else (s3, evs ++ [Ev.readProtect a, Ev.readAxisErr a])

/-- `LimitProtectionSystem.check_limits(motor_name)`, with the system's
`_enabled` flag and its `motors` dict passed explicitly, returning the
`LimitStatus` together with the list of servo calls performed.  Mirrors the
source order: enabled gate, unknown-motor gate, angle read, software min/max,
warning zones, hardware switches (only if configured), protect flag,
following error; any raising read ends the check with the fields set so far
and an error message. -/
def check_limits (env : ServoEnv) (enabled : Bool)
    (motors : List (String × MotorLimits)) (motor_name : String) :
    LimitStatus × List Ev :=
  if enabled = false then ({}, [])
  else
    match List.lookup motor_name motors with
    | none => ({ message := .unknownMotor motor_name }, [])
    | some limits =>
      let a := limits.addr
      match env.angle a with
      | none => ({ message := .limitCheckError }, [Ev.readAngle a])
      | some ang =>
        if softMinViol limits ang then
          ({ violation_type := .SOFTWARE_MIN,
             current_angle := some ang,
             limit_value := limits.min_angle,
             message := .belowMinimum },
           [Ev.readAngle a])
        else if softMaxViol limits ang then
          ({ violation_type := .SOFTWARE_MAX,
             current_angle := some ang,
             limit_value := limits.max_angle,
             message := .aboveMaximum },
           [Ev.readAngle a])
        else
          let warn := warnMin limits ang || warnMax limits ang
          let wmsg := if warnMax limits ang then Msg.approachingMax
                      else if warnMin limits ang then Msg.approachingMin
                      else Msg.empty
          let base : LimitStatus :=
            { current_angle := some ang, in_warning_zone := warn, message := wmsg }
          if limits.has_hardware_limits then
            match env.limitSwitches a with
            | none => ({ base with message := .limitCheckError },
                       [Ev.readAngle a, Ev.readLimitSwitches a])
            | some sw =>
              if sw.1 || sw.2 then
                ({ base with
                    violation_type := .HARDWARE_LIMIT,
                    message := .hardwareLimitTriggered },
                 [Ev.readAngle a, Ev.readLimitSwitches a])
              else
                checkProtectAndError env limits base [Ev.readAngle a, Ev.readLimitSwitches a]
          else
            checkProtectAndError env limits base [Ev.readAngle a]

/-- `LimitProtectionSystem.validate_move(motor_name, target_angle)`. -/
def validate_move (env : ServoEnv) (enabled : Bool)
    (motors : List (String × MotorLimits)) (motor_name : String) (target : ℚ) :
    (Bool × Msg) × List Ev :=
  match List.lookup motor_name motors with
  | none => ((false, .unknownMotor motor_name), [])
  | some limits =>
    if softMinViol limits target then ((false, .targetBelowMin), [])
    else if softMaxViol limits target then ((false, .targetAboveMax), [])
    else
      let r := check_limits env enabled motors motor_name
      if r.1.violation_type ≠ .NONE then
        ((false, .currentViolation r.1.message), r.2)
      else ((true, .moveValidated), r.2)

/-- The move-issuing tail of `safe_move_to`: look up the motor (a missing key
raises, modelled `.error ()`), call `move_to_degrees` (always attempted, may
raise). -/
def issueMove (env : ServoEnv) (motors : List (String × MotorLimits))
    (motor_name : String) (evs : List Ev) :
    Except Unit (Bool × Msg) × List Ev :=
  match List.lookup motor_name motors with
  | none => (.error (), evs)
  | some limits =>
    let evs2 := evs ++ [Ev.moveToDeg limits.addr]
    if env.moveOk limits.addr then (.ok (true, .moving), evs2)
    else (.ok (false, .moveFailed), evs2)

/-- `LimitProtectionSystem.safe_move_to(motor_name, target_angle, speed_rpm,
acc, force)`.  `.error ()` models an uncaught exception (the `KeyError` of
the dict subscript on an unknown motor). -/
def safe_move_to (env : ServoEnv) (enabled : Bool)
    (motors : List (String × MotorLimits)) (motor_name : String) (target : ℚ)
    (speed_rpm : Int) (acc : Nat) (force : Bool) :
    Except Unit (Bool × Msg) × List Ev :=
  if force = false then
    let v := validate_move env enabled motors motor_name target
    if v.1.1 = false then (.ok (false, v.1.2), v.2)
    else issueMove env motors motor_name v.2
  else issueMove env motors motor_name []

/-- `LimitProtectionSystem.emergency_stop_all()`: iterate the motors dict in
order, attempt `emergency_stop` on each inside `try/except`, record `True`
on success and `False` on a raise, never aborting the iteration. -/
def emergency_stop_all (env : ServoEnv) (motors : List (String × MotorLimits)) :
    List (String × Bool) × List Ev :=
  match motors with
  | [] => ([], [])
  | (n, l) :: rest =>
    let r := emergency_stop_all env rest
    ((n, env.estopOk l.addr) :: r.1, Ev.estop l.addr :: r.2)

/-! ### Multi-motor controller (multi_motor_controller.py) -/

/-- `MotorController.emergency_stop_all()`: a bare dict comprehension over
the three motors with no `try/except`; the first raising `emergency_stop`
propagates (`.error ()`) and the comprehension stops, so later motors are
never attempted.  The ack byte of a successful stop is abstracted to `1`. -/
def mc_emergency_stop_all (env : ServoEnv) (motors : List (String × Nat)) :
    Except Unit (List (String × Nat)) × List Ev :=
  match motors with
  | [] => (.ok [], [])
  | (n, a) :: rest =>
    if env.estopOk a then
      let r := mc_emergency_stop_all env rest
      match r.1 with
      | .ok res => (.ok ((n, 1) :: res), Ev.estop a :: r.2)
      | .error e => (.error e, Ev.estop a :: r.2)
    else (.error (), [Ev.estop a])

/-- The azimuth entry of the dict built by `create_aetherlink_protection`. -/
def azimuthLimits : MotorLimits :=
  { addr := 0x01, name := "Azimuth", min_angle := some 0, max_angle := some 360,
    has_hardware_limits := true, hardware_limits_enabled := true,
    stall_detection_enabled := false, warning_margin := 10 }

/-- The elevation entry of the dict built by `create_aetherlink_protection`. -/
def elevationLimits : MotorLimits :=
  { addr := 0x02, name := "Elevation", min_angle := some 0, max_angle := some 90,
    has_hardware_limits := false, stall_detection_enabled := true,
    max_following_error := 500, warning_margin := 5 }

/-- The cross entry of the dict built by `create_aetherlink_protection`. -/
def crossLimits : MotorLimits :=
  { addr := 0x03, name := "Cross", min_angle := some (-45), max_angle := some 45,
    has_hardware_limits := false, stall_detection_enabled := true,
    max_following_error := 400, warning_margin := 5 }

/-- The motors dict built by `create_aetherlink_protection`. -/
def aetherlinkMotors : List (String × MotorLimits) :=
  [("azimuth", azimuthLimits), ("elevation", elevationLimits), ("cross", crossLimits)]

/-- `MotorController.move_elevation(target_deg, rpm, acc, safe)` with the
default protection system attached: the safe path defers to
`safe_move_to("elevation", …)` and raises `ValueError` (here `.error` with
the reason) when it reports failure; the unsafe path moves directly. -/
def move_elevation (env : ServoEnv) (enabled : Bool) (target : ℚ)
    (rpm : Int) (acc : Nat) (safe : Bool) : Except Msg Int × List Ev :=
  if safe then
    match safe_move_to env enabled aetherlinkMotors "elevation" target rpm acc false with
    | (.ok (success, msg), evs) =>
      if success then (.ok 1, evs) else (.error msg, evs)
    | (.error _, evs) => (.error .moveFailed, evs)
  else
    if env.moveOk 0x02 then (.ok 1, [Ev.moveToDeg 0x02])
    else (.error .moveFailed, [Ev.moveToDeg 0x02])

/-! ### Concrete environments used as inputs to the theorems -/

/-- Environment in which every servo read and command raises (e.g. a dead or
noisy bus). -/
def envNone : ServoEnv :=
  { angle := fun _ => none, limitSwitches := fun _ => none,
    protectFlag := fun _ => none, axisErr := fun _ => none,
    moveOk := fun _ => false, estopOk := fun _ => false }

/-- Environment in which every write to address 2 raises and everything else
behaves: angle 45°, limit switches clear, protect flag 0, axis error 0. -/
def envFailAddr2 : ServoEnv :=
  { angle := fun _ => some 45, limitSwitches := fun _ => some (false, false),
    protectFlag := fun _ => some 0, axisErr := fun _ => some 0,
    moveOk := fun a => a != 2, estopOk := fun a => a != 2 }

/-- Environment with the angle at −5° and a hardware limit switch asserted. -/
def envSwitchAndSoftMin : ServoEnv :=
  { angle := fun _ => some (-5), limitSwitches := fun _ => some (true, false),
    protectFlag := fun _ => some 0, axisErr := fun _ => some 0,
    moveOk := fun _ => true, estopOk := fun _ => true }

/-- Environment with the angle at 45° and a hardware limit switch asserted. -/
def envSwitchInRange : ServoEnv :=
  { angle := fun _ => some 45, limitSwitches := fun _ => some (true, false),
    protectFlag := fun _ => some 0, axisErr := fun _ => some 0,
    moveOk := fun _ => true, estopOk := fun _ => true }

/-- An azimuth-like axis `min=0, max=90` with hardware limit switches. -/
def hwAxisLimits : MotorLimits :=
  { addr := 1, name := "Azimuth", min_angle := some 0, max_angle := some 90,
    has_hardware_limits := true }

/-- A one-axis motors dict holding `hwAxisLimits`. -/
def hwAxisMotors : List (String × MotorLimits) := [("azimuth", hwAxisLimits)]

/-! ## Theorems -/

/-- C9: `degrees_to_axis_ticks` and `axis_ticks_to_degrees` are total
functions (they are Lean functions on all of ℚ resp. ℤ), and for every
`deg ∈ [0, 360)` the round trip returns within `360/16384` degrees of the
input. -/
theorem ticks_roundtrip_quantization (deg : ℚ) (h0 : 0 ≤ deg) (h1 : deg < 360) :
    |axis_ticks_to_degrees (degrees_to_axis_ticks deg) - deg| ≤ 360 / 16384 := by
  have key : axis_ticks_to_degrees (degrees_to_axis_ticks deg) - deg
      = ((round (deg / 360 * 16384) : ℚ) - deg / 360 * 16384) * (360 / 16384) := by
    simp only [axis_ticks_to_degrees, degrees_to_axis_ticks, TICKS_PER_REV]
    norm_num
    ring
  rw [key, abs_mul]
  have h2 : |(round (deg / 360 * 16384) : ℚ) - deg / 360 * 16384| ≤ 1 / 2 := by
    rw [abs_sub_comm]
    exact abs_sub_round _
  have h3 : |((360 : ℚ) / 16384)| = 360 / 16384 := by
    rw [abs_of_pos]
    norm_num
  rw [h3]
  calc |(round (deg / 360 * 16384) : ℚ) - deg / 360 * 16384| * (360 / 16384)
      ≤ (1 / 2) * (360 / 16384) := by
        apply mul_le_mul_of_nonneg_right h2
        norm_num
    _ ≤ 360 / 16384 := by norm_num

/-- Witness for `ticks_roundtrip_quantization` at `deg = 10`. -/
theorem ticks_roundtrip_quantization_witness :
    (0 : ℚ) ≤ 10 ∧ (10 : ℚ) < 360 ∧
    |axis_ticks_to_degrees (degrees_to_axis_ticks 10) - 10| ≤ 360 / 16384 :=
  ⟨by norm_num, by norm_num,
   ticks_roundtrip_quantization 10 (by norm_num) (by norm_num)⟩

/-- C8: `determine_mode` is a pure function of `(error_deg,
target_velocity_dps, actual_velocity_dps)` and the configured thresholds
(purity is definitional in this embedding: the Lean function takes exactly
those six arguments, so equal inputs give equal modes), and with the
configured thresholds it selects `TRACK_SPEED` iff `|error| > 2 ∨
|target_vel| > 0.1`, otherwise `CORRECTING` iff `|error| > 0.5 ∧
|actual_vel| > 0.1`, otherwise `HOLD` iff `|error| ≤ 0.5 ∧ |actual_vel| ≤
0.1`, otherwise `TRACK_POSITION`. -/
theorem determine_mode_characterization (e tv av : ℚ) :
    (determine_mode e tv av TRACK_ERROR_THRESHOLD HOLD_ERROR_THRESHOLD VELOCITY_THRESHOLD
        = .TRACK_SPEED ↔ (|e| > 2 ∨ |tv| > 1/10))
    ∧ (¬(|e| > 2 ∨ |tv| > 1/10) →
        (determine_mode e tv av TRACK_ERROR_THRESHOLD HOLD_ERROR_THRESHOLD VELOCITY_THRESHOLD
            = .CORRECTING ↔ (|e| > 1/2 ∧ |av| > 1/10)))
    ∧ (¬(|e| > 2 ∨ |tv| > 1/10) → ¬(|e| > 1/2 ∧ |av| > 1/10) →
        (determine_mode e tv av TRACK_ERROR_THRESHOLD HOLD_ERROR_THRESHOLD VELOCITY_THRESHOLD
            = .HOLD ↔ (|e| ≤ 1/2 ∧ |av| ≤ 1/10)))
    ∧ (¬(|e| > 2 ∨ |tv| > 1/10) → ¬(|e| > 1/2 ∧ |av| > 1/10) →
        ¬(|e| ≤ 1/2 ∧ |av| ≤ 1/10) →
        determine_mode e tv av TRACK_ERROR_THRESHOLD HOLD_ERROR_THRESHOLD VELOCITY_THRESHOLD
            = .TRACK_POSITION) := by
  unfold determine_mode TRACK_ERROR_THRESHOLD HOLD_ERROR_THRESHOLD VELOCITY_THRESHOLD
  dsimp only
  split_ifs with h1 h2 h3 h4 <;>
    refine ⟨?_, ?_, ?_, ?_⟩ <;> simp_all

/-- Witness for `determine_mode_characterization`: at `(3, 0, 0)` the mode
is `TRACK_SPEED`. -/
theorem determine_mode_characterization_witness :
    determine_mode 3 0 0 TRACK_ERROR_THRESHOLD HOLD_ERROR_THRESHOLD VELOCITY_THRESHOLD
      = .TRACK_SPEED :=
  ((determine_mode_characterization 3 0 0).1).mpr (by norm_num)

/-- `clampRpm` is idempotent. -/
theorem clampRpm_idem (rpm : Int) : clampRpm (clampRpm rpm) = clampRpm rpm := by
  have hle : clampRpm rpm ≤ 3000 := max_le (by norm_num) (min_le_left _ _)
  have hge : 0 ≤ clampRpm rpm := le_max_left 0 _
  calc clampRpm (clampRpm rpm) = max 0 (min 3000 (clampRpm rpm)) := rfl
    _ = max 0 (clampRpm rpm) := by rw [min_eq_right hle]
    _ = clampRpm rpm := max_eq_right hge

/-- `pack_u16` depends only on the argument mod 2^16. -/
theorem pack_u16_mod (x : Int) : pack_u16 (x % 65536) = pack_u16 x := by
  unfold pack_u16
  rw [Int.emod_emod_of_dvd x dvd_rfl]

/-- C7 counterexample: the claim says the RPM is clamped to `[0, 3000]`
before being encoded into the 0xF5 (`move_axis_absolute`) request, i.e. the
frame built for rpm 5000 would equal the frame built for the clamped value
3000; the frames differ (the source packs the raw u16 5000 = 0x1388). -/
theorem rpm_clamp_counterexample :
    move_axis_absolute_frame 1 5000 0 0 ≠ move_axis_absolute_frame 1 (clampRpm 5000) 0 0 := by
  decide

/-- C7 amended: the clamp to `[0, 3000]` is applied by `_pack_speed_dir`,
hence to the speed-mode command 0xF6 and the relative-pulse move 0xFD; the
moves 0xF4, 0xF5 and 0xFE instead encode the RPM as a raw unsigned 16-bit
value (mod 2^16) with no clamping. -/
theorem rpm_encoding_amended (addr : Nat) (dir_ccw : Bool) (rpm : Int) (acc : Nat)
    (pulses ticks abs_ticks abs_pulses : Int) :
    run_speed_mode_frame addr dir_ccw rpm acc
      = run_speed_mode_frame addr dir_ccw (clampRpm rpm) acc
    ∧ run_position_rel_pulses_frame addr dir_ccw rpm acc pulses
      = run_position_rel_pulses_frame addr dir_ccw (clampRpm rpm) acc pulses
    ∧ move_axis_relative_frame addr rpm acc ticks
      = move_axis_relative_frame addr (rpm % 65536) acc ticks
    ∧ move_axis_absolute_frame addr rpm acc abs_ticks
      = move_axis_absolute_frame addr (rpm % 65536) acc abs_ticks
    ∧ run_position_abs_pulses_frame addr rpm acc abs_pulses
      = run_position_abs_pulses_frame addr (rpm % 65536) acc abs_pulses := by
  have hp : pack_speed_dir dir_ccw (clampRpm rpm) = pack_speed_dir dir_ccw rpm := by
    unfold pack_speed_dir
    rw [show max 0 (min 3000 (clampRpm rpm)) = clampRpm (clampRpm rpm) from rfl,
        clampRpm_idem]
    rfl
  refine ⟨?_, ?_, ?_, ?_, ?_⟩
  · unfold run_speed_mode_frame
    rw [hp]
  · unfold run_position_rel_pulses_frame
    rw [hp]
  · unfold move_axis_relative_frame
    rw [pack_u16_mod]
  · unfold move_axis_absolute_frame
    rw [pack_u16_mod]
  · unfold run_position_abs_pulses_frame
    rw [pack_u16_mod]

/-- C2: in the transport-operation sequence issued by `_xfer` (which builds
the request frame and then calls `_send`), any write of bytes is preceded by
operations that leave the receive buffer empty — from every starting buffer
state — and the bytes written are exactly the already-built request frame.
So no write to the bus is preceded by un-discarded stale input. -/
theorem xfer_clears_input_before_write (addr code : Nat) (data : List Nat)
    (s : SerialState) (pre post : List SerialOp) (x : List Nat)
    (h : xferSendOps addr code data = pre ++ SerialOp.writeBytes x :: post) :
    (runOps s pre).inBuf = [] ∧ x = mksFrame addr code data := by
  unfold xferSendOps sendOps at h
  rcases pre with _ | ⟨a, pre⟩
  · exfalso
    simp at h
  rcases pre with _ | ⟨b, pre⟩
  · simp at h
    obtain ⟨ha, hx, _⟩ := h
    subst ha
    constructor
    · simp [runOps, applyOp]
    · exact hx.symm
  rcases pre with _ | ⟨c, pre⟩
  · exfalso
    simp at h
  · exfalso
    have hlen := congrArg List.length h
    simp at hlen

/-- Witness for `xfer_clears_input_before_write`: the emergency-stop
transaction to address 1, starting from a transport with stale bytes
`[7, 7]` pending. -/
theorem xfer_clears_input_before_write_witness :
    (runOps ⟨[7, 7], []⟩ [SerialOp.resetInput]).inBuf = []
    ∧ mksFrame 1 0xF7 [] = mksFrame 1 0xF7 [] :=
  xfer_clears_input_before_write 1 0xF7 [] ⟨[7, 7], []⟩ [SerialOp.resetInput]
    [SerialOp.flushOut] (mksFrame 1 0xF7 []) rfl

/-- C1: `LimitProtectionSystem.emergency_stop_all` does attempt every
configured axis and marks exactly the raising axes `False` — but the claim
also covers `MotorController.emergency_stop_all`, whose dict comprehension
has no per-axis exception handling: with writes failing for address 2 only,
it raises at the elevation motor and the cross motor (address 3) is never
attempted, contradicting the claim (and the spec's stated intent). -/
theorem emergency_stop_all_divergence :
    (∀ (env : ServoEnv) (motors : List (String × MotorLimits)),
      (emergency_stop_all env motors).2 = motors.map (fun p => Ev.estop p.2.addr)
      ∧ (emergency_stop_all env motors).1
          = motors.map (fun p => (p.1, env.estopOk p.2.addr)))
    ∧ mc_emergency_stop_all envFailAddr2 [("Azimuth", 1), ("Elevation", 2), ("Cross", 3)]
        = (.error (), [Ev.estop 1, Ev.estop 2]) := by
  constructor
  · intro env motors
    induction motors with
    | nil => exact ⟨rfl, rfl⟩
    | cons hd tl ih =>
      constructor
      · simp [emergency_stop_all, ih.1]
      · simp [emergency_stop_all, ih.2]
  · rfl

/-- C10: with the protection system disabled, and likewise for a motor name
not in the configured set, `check_limits` returns a status whose
`violation_type` is `NONE` (indistinguishable by that field from a clear
check) and performs no drive-status reads. -/
theorem check_limits_disabled_or_unknown (env : ServoEnv)
    (motors : List (String × MotorLimits)) (name : String) :
    ((check_limits env false motors name).1.violation_type = .NONE
      ∧ (check_limits env false motors name).2 = [])
    ∧ (List.lookup name motors = none →
        (check_limits env true motors name).1.violation_type = .NONE
        ∧ (check_limits env true motors name).2 = []) := by
  constructor
  · exact ⟨rfl, rfl⟩
  · intro hlook
    unfold check_limits
    rw [hlook]
    exact ⟨rfl, rfl⟩

/-- Witness for `check_limits_disabled_or_unknown`: an unknown motor name on
the Aetherlink configuration, under the all-raising environment. -/
theorem check_limits_disabled_or_unknown_witness :
    (check_limits envNone true aetherlinkMotors "feed").1.violation_type = .NONE
    ∧ (check_limits envNone true aetherlinkMotors "feed").2 = [] :=
  (check_limits_disabled_or_unknown envNone aetherlinkMotors "feed").2 (by decide)

/-- C3 counterexample: azimuth-like axis `min=0, max=90` with hardware limit
switches, simulated angle −5° (below the soft minimum) and a limit switch
asserted: `check_limits` reports `SOFTWARE_MIN`, not `HARDWARE_LIMIT` — the
software-limit checks run first and return before the switch is even read. -/
theorem hardware_limit_precedence_counterexample :
    (check_limits envSwitchAndSoftMin true hwAxisMotors "azimuth").1.violation_type
        = .SOFTWARE_MIN
    ∧ (check_limits envSwitchAndSoftMin true hwAxisMotors "azimuth").1.violation_type
        ≠ .HARDWARE_LIMIT := by
  constructor
  · rfl
  · decide

/-- C3 amended: for an axis configured with hardware limit switches whose
switch reads asserted, `check_limits` reports `HARDWARE_LIMIT` (and never
`SOFTWARE_MIN`/`SOFTWARE_MAX`) provided the angle read for the axis violates
neither software bound; when the angle is simultaneously out of the soft
range, the software violation takes precedence. -/
theorem hardware_limit_after_soft_checks (env : ServoEnv)
    (motors : List (String × MotorLimits)) (name : String) (limits : MotorLimits)
    (ang : ℚ) (sw : Bool × Bool)
    (hlook : List.lookup name motors = some limits)
    (hhw : limits.has_hardware_limits = true)
    (hang : env.angle limits.addr = some ang)
    (hmin : softMinViol limits ang = false)
    (hmax : softMaxViol limits ang = false)
    (hsw : env.limitSwitches limits.addr = some sw)
    (hon : sw.1 || sw.2) :
    (check_limits env true motors name).1.violation_type = .HARDWARE_LIMIT := by
  simp [check_limits, hlook, hang, hmin, hmax, hhw, hsw, hon]

/-- Witness for `hardware_limit_after_soft_checks`: same axis, angle 45°
inside `[0, 90]`, switch asserted — `HARDWARE_LIMIT` is reported. -/
theorem hardware_limit_after_soft_checks_witness :
    (check_limits envSwitchInRange true hwAxisMotors "azimuth").1.violation_type
      = .HARDWARE_LIMIT :=
  hardware_limit_after_soft_checks envSwitchInRange hwAxisMotors "azimuth"
    hwAxisLimits 45 (true, false) (by decide) rfl rfl (by decide) (by decide) rfl rfl

/-- C4: a safe move (`safe_move_to` without `force`, as used by the `safe`
path of the controller's `move_*` methods) whose target lies outside the
axis's configured bounds is rejected — with the below-minimum or
above-maximum reason — and performs no servo call at all, so zero frames
reach the transport; in particular `move_elevation(95.0, rpm, acc,
safe=True)` on the `min=0, max=90` elevation axis raises the rejection with
no frame sent, whatever the bus environment. -/
theorem safe_move_out_of_range_rejected (env : ServoEnv) (enabled : Bool)
    (motors : List (String × MotorLimits)) (name : String) (limits : MotorLimits)
    (target : ℚ) (rpm : Int) (acc : Nat)
    (hlook : List.lookup name motors = some limits)
    (hout : softMinViol limits target = true ∨ softMaxViol limits target = true) :
    (safe_move_to env enabled motors name target rpm acc false
        = (.ok (false, .targetBelowMin), [])
      ∨ safe_move_to env enabled motors name target rpm acc false
        = (.ok (false, .targetAboveMax), []))
    ∧ move_elevation env enabled 95 rpm acc true = (.error .targetAboveMax, []) := by
  constructor
  · by_cases hm : softMinViol limits target = true
    · left
      simp [safe_move_to, validate_move, hlook, hm]
    · have hmax : softMaxViol limits target = true := hout.resolve_left hm
      right
      simp [safe_move_to, validate_move, hlook, hm, hmax]
  · rfl

/-- Witness for `safe_move_out_of_range_rejected`: the elevation axis
(`min=0, max=90`) and target 95°, under the all-raising environment. -/
theorem safe_move_out_of_range_rejected_witness :
    (safe_move_to envNone true aetherlinkMotors "elevation" 95 400 3 false
        = (.ok (false, .targetBelowMin), [])
      ∨ safe_move_to envNone true aetherlinkMotors "elevation" 95 400 3 false
        = (.ok (false, .targetAboveMax), []))
    ∧ move_elevation envNone true 95 400 3 true = (.error .targetAboveMax, []) :=
  safe_move_out_of_range_rejected envNone true aetherlinkMotors "elevation"
    elevationLimits 95 400 3 (by decide) (Or.inr (by decide))

/-- C5 (divergence evaluation): when the drive-status read inside
`check_limits` raises (here: every read raises), the returned status keeps
`violation_type = NONE` — by its violation field indistinguishable from a
clear check, only the message records the error — and `validate_move`
against that state returns `(True, "Move validated")`, flagging no
uncertainty.  The claim (and the spec) require the failed check not to
report the axis as clear and the validation to flag the uncertainty. -/
theorem failed_check_reported_as_clear :
    (check_limits envNone true aetherlinkMotors "elevation").1.violation_type
        = LimitViolationType.NONE
    ∧ (check_limits envNone true aetherlinkMotors "elevation").1.message
        = Msg.limitCheckError
    ∧ (validate_move envNone true aetherlinkMotors "elevation" 45).1
        = (true, Msg.moveValidated) := by
  refine ⟨rfl, rfl, ?_⟩
  decide

/-- C6 counterexample: at `(address, function, payload) = (1, 0x30, [])`
(payload length 0 ≤ 34), decoding the frame produced by `_frame` does not
return the triple: `_frame` emits the downlink header 0xFA while `_recv`
accepts only uplink frames headed 0xFB, so the decode fails with a protocol
error (and for this opcode the expected length would not match either). -/
theorem codec_roundtrip_counterexample :
    decodeTriple (mksFrame 1 0x30 []) 0x30 (some 1) ≠ .ok (1, 0x30, []) := by
  have h : decodeTriple (mksFrame 1 0x30 []) 0x30 (some 1) = .error .protocolError := by
    rfl
  rw [h]
  simp

/-- C6 amended: encode/decode round-trip as the link actually performs it —
for every `(address, function, payload)` where the frame carries the uplink
header 0xFB and the function is a fixed-length opcode whose expected total
length matches `3 + payload length + 1`, decoding succeeds and returns
exactly `(address, function, payload)`. -/
theorem codec_roundtrip_fixed_length (a f : Nat) (p : List Nat)
    (ha : a < 256) (hf : f < 256)
    (hlen : EXPECT_LEN f = some (p.length + 4)) :
    decodeTriple (frameWith UP_HDR a f p) f (some a) = .ok (a, f, p) := by
  have hamod : a % 256 = a := Nat.mod_eq_of_lt ha
  have hfmod : f % 256 = f := Nat.mod_eq_of_lt hf
  have hframe : frameWith UP_HDR a f p
      = UP_HDR :: a :: f :: (p ++ [checksum8 (UP_HDR :: a :: f :: p)]) := by
    unfold frameWith
    rw [hamod, hfmod]
    simp
  rw [hframe]
  set c := checksum8 (UP_HDR :: a :: f :: p) with hcdef
  unfold decodeTriple recv
  simp only [hlen]
  have h1 : (p ++ [c]).take (p.length + 4 - 3) = p ++ [c] := by
    apply List.take_of_length_le
    simp
  rw [h1]
  have hcond1 : ¬(UP_HDR ≠ UP_HDR) := by simp
  rw [if_neg hcond1]
  have hcond2 : ¬((a != a % 256) = true) := by simp [hamod]
  rw [if_neg hcond2]
  have hcond3 : ¬((p ++ [c]).length ≠ p.length + 4 - 3) := by simp
  rw [if_neg hcond3]
  have hassoc : [UP_HDR, a, f] ++ (p ++ [c]) = ([UP_HDR, a, f] ++ p) ++ [c] := by simp
  have hgl : ([UP_HDR, a, f] ++ (p ++ [c])).getLast? = some c := by
    rw [hassoc]
    exact List.getLast?_concat _
  have hdl : ([UP_HDR, a, f] ++ (p ++ [c])).dropLast = [UP_HDR, a, f] ++ p := by
    rw [hassoc]
    exact List.dropLast_concat
  have hcond4 : ¬(([UP_HDR, a, f] ++ (p ++ [c])).getLast?
      ≠ some (checksum8 (([UP_HDR, a, f] ++ (p ++ [c])).dropLast))) := by
    rw [hgl, hdl]
    simp [hcdef]
  rw [if_neg hcond4]
  have hcond5 : ¬(f ≠ f % 256) := by simp [hfmod]
  rw [if_neg hcond5]
  simp [Except.map, List.getD, List.dropLast_concat]

/-- Witness for `codec_roundtrip_fixed_length`: the protect-flag reply
opcode 0x3E (expected total length 5) with payload `[7]` to address 2. -/
theorem codec_roundtrip_fixed_length_witness :
    EXPECT_LEN 0x3E = some ([7].length + 4)
    ∧ decodeTriple (frameWith UP_HDR 2 0x3E [7]) 0x3E (some 2) = .ok (2, 0x3E, [7]) :=
  ⟨by decide, codec_roundtrip_fixed_length 2 0x3E [7] (by decide) (by decide) (by decide)⟩

end AetherLink
